import Mathlib

/-!
Shallow embedding of the URL-shortener web application in `src/main.py`
(trnk8): the short-code generator, the generate/check/insert creation loop
of `create_short_url` (lines 126-180), the cookie-based user resolution of
`get_current_user` (lines 33-49), and the redirect handler `redirect_url`
(lines 234-254).

External collaborators (the `validators` library, the Supabase auth client,
and the HTTP transport to the Supabase REST store) are modelled as explicit
parameters: the validator as a boolean oracle on strings, the auth client as
a function from tokens to an outcome, and each store round-trip as a
supplied response (status code plus decoded JSON body).  Randomness
(`random.choices`) is modelled as a supplied sequence of indices into the
population string.
-/

namespace Trnk8

/-- Python exceptions that the handlers can raise or catch: FastAPI's
`HTTPException`, and the builtin `AttributeError` / `IndexError`. -/
inductive PyExn where
  | httpException (statusCode : Nat) (detail : String)
  | attributeError
  | indexError
deriving DecidableEq

/-- The population passed to `random.choices` on line 145:
`string.ascii_letters + string.digits`, i.e. the 26 lowercase letters, then
the 26 uppercase letters, then the 10 digits. -/
def alphabet : List Char :=
  "abcdefghijklmnopqrstuvwxyzABCDEFGHIJKLMNOPQRSTUVWXYZ0123456789".toList

/-- Line 145: `short_code = ''.join(random.choices(string.ascii_letters +
string.digits, k=6))`.  `random.choices` draws `k` independent random
indices into the 62-character population; `pick i` is the i-th drawn
index. -/
def genCode (pick : Fin 6 → Fin 62) : String :=
  String.mk ((List.finRange 6).map fun i =>
    alphabet.get (Fin.cast (by decide) (pick i)))

/-- One HTTP response from the Supabase REST endpoint: the status code and
the decoded JSON body, a list of rows projected to the single selected
column (`short_code` for the uniqueness check, `original_url` for the
redirect lookup). -/
structure StoreResponse where
  status : Nat
  body : List String
deriving DecidableEq

/-- One iteration of the generation loop: the randomness consumed by
`random.choices` and the store's response to the uniqueness-check GET. -/
structure Iter where
  pick : Fin 6 → Fin 62
  resp : StoreResponse

/-- How the `while True` loop of lines 144-155 can stand after consuming a
finite prefix of iterations: still running (it has neither exited nor
failed), or exited at `break` with a chosen code. -/
inductive LoopResult where
  | stillRunning
  | found (code : String)
deriving DecidableEq

/-- Lines 144-155, the generation loop, over an explicit trace of
iterations; the second component counts the store GET requests issued.
Per iteration: generate a candidate (line 145), issue the check GET
(lines 146-150); on a non-200 status `continue` with a fresh candidate
(lines 151-153); on an empty JSON body `break` with this candidate
(lines 154-155); on a non-empty body loop again.  An exhausted trace means
the loop is still running. -/
def runLoop : List Iter → Nat → LoopResult × Nat
  | [], calls => (.stillRunning, calls)
  | it :: rest, calls =>
    let sc := genCode it.pick
    if it.resp.status ≠ 200 then runLoop rest (calls + 1)
    else if it.resp.body.isEmpty then (.found sc, calls + 1)
    else runLoop rest (calls + 1)

/-- A Python `dict` with string keys and string values, as produced by
`get_current_user` (the user model's `__dict__` plus `display_name`). -/
abbrev PyDict := List (String × String)

/-- Attribute names defined on Python's builtin `dict` type itself.
Attribute access `d.name` on a dict looks up the type's attributes, never
the mapping's own keys. -/
def dictTypeAttrs : List String :=
  ["clear", "copy", "fromkeys", "get", "items", "keys", "pop", "popitem",
   "setdefault", "update", "values"]

/-- Python attribute access `d.name` on a dict value `d`: the stored keys
are not attributes, so this raises `AttributeError` unless `name` is an
attribute of the `dict` type itself (in which case it yields the bound
method, represented here by its name; no caller below inspects it). -/
def dictGetattr (_d : PyDict) (name : String) : Except PyExn String :=
  if name ∈ dictTypeAttrs then .ok name else .error .attributeError

/-- The possible responses of the `POST /` handler `create_short_url`:
the 303 redirect to `/login` (line 133), the `index.html` error views with
messages `Invalid URL.` (line 139), `An error occurred.` (line 173, the
`except` branch) and `Failed to save URL.` (line 169), the success view
rendering the short URL built from the chosen code (lines 175-180), or
still inside the generation loop (the supplied iteration trace ran out
before the loop exited). -/
inductive CreateResult where
  | loginRedirect
  | invalidUrlView
  | stillLooping
  | errorOccurredView
  | failedSaveView
  | shortUrlView (code : String)
deriving DecidableEq

/-- Python `s.startswith(pre)`: `pre` is a prefix of `s`. -/
def pyStartsWith (s pre : String) : Bool :=
  pre.data.isPrefixOf s.data

/-- Lines 136-137: `if not url.startswith(('http://', 'https://')): url =
'http://' + url`. -/
def normalizeUrl (url : String) : String :=
  if pyStartsWith url "http://" || pyStartsWith url "https://" then url
  else "http://" ++ url

/-- Lines 126-180, the `POST /` handler `create_short_url`.  `validUrl` is
the `validators.url` oracle, `user` the resolved current user (a dict, or
`None`), `trace` the generation-loop iterations, `insertStatus` the status
the store would answer to the insert POST.  Returns the response together
with the number of store HTTP requests issued.  Control flow: line 132
redirects unauthenticated callers to `/login`; lines 136-139 normalize and
validate the URL, returning the error view with no store call on failure;
lines 144-155 run the generation loop; line 163 evaluates `user.id` on the
dict `user` while building the insert payload — an exception there is
caught by the `except` on line 171, so the insert POST is never sent and
the generic error view is returned; otherwise lines 158-169 send the POST
and lines 175-180 render the result. -/
def create_short_url (validUrl : String → Bool) (user : Option PyDict)
    (url : String) (trace : List Iter) (insertStatus : Nat) :
    CreateResult × Nat :=
  match user with
  | none => (.loginRedirect, 0)
  | some u =>
    let nurl := normalizeUrl url
    if validUrl nurl = false then (.invalidUrlView, 0)
    else
      match runLoop trace 0 with
      | (.stillRunning, n) => (.stillLooping, n)
      | (.found sc, n) =>
        match dictGetattr u "id" with
        | .error _ => (.errorOccurredView, n)
        | .ok _ =>
          if insertStatus ≠ 201 then (.failedSaveView, n + 1)
          else (.shortUrlView sc, n + 1)

/-- A persisted link record (one row of the `urls` table). -/
structure LinkRecord where
  short_code : String
  original_url : String
  user_id : String
deriving DecidableEq

/-- The store: the committed link records. -/
abbrev Store := List LinkRecord

/-- The store lookup by short code that both the uniqueness check and the
redirect GET perform (`short_code=eq.{code}` row filter). -/
def findByCode (store : Store) (code : String) : Option LinkRecord :=
  store.find? fun r => r.short_code == code

/-- The JSON body the store answers to the uniqueness-check GET of
lines 146-150 (`select=short_code`, `short_code=eq.{code}`). -/
def checkBody (store : Store) (code : String) : List String :=
  (store.filter fun r => r.short_code == code).map fun r => r.short_code

/-- Sequential execution: the store is healthy and untouched between the
check of a candidate and the next step, so every check GET answers 200 with
the rows actually matching the candidate. -/
def seqTrace (store : Store) (picks : List (Fin 6 → Fin 62)) : List Iter :=
  picks.map fun p => ⟨p, ⟨200, checkBody store (genCode p)⟩⟩

/-- The creation operation under sequential execution against a healthy
store: the same control flow as `create_short_url`, with every check
response derived from the store, and the insert POST of lines 158-166 —
when it is reached — committing the record (status 201).  Returns the
response and the store after the operation. -/
def createSeq (validUrl : String → Bool) (user : Option PyDict)
    (url : String) (picks : List (Fin 6 → Fin 62)) (store : Store) :
    CreateResult × Store :=
  match user with
  | none => (.loginRedirect, store)
  | some u =>
    if validUrl (normalizeUrl url) = false then (.invalidUrlView, store)
    else
      match (runLoop (seqTrace store picks) 0).1 with
      | .stillRunning => (.stillLooping, store)
      | .found sc =>
        match dictGetattr u "id" with
        | .error _ => (.errorOccurredView, store)
        | .ok uid => (.shortUrlView sc, store ++ [⟨sc, normalizeUrl url, uid⟩])

/-- No two committed records share a short code. -/
def codesUnique (store : Store) : Prop :=
  store.Pairwise fun a b => a.short_code ≠ b.short_code

/-- The possible responses of the `GET /{short_code}` handler: an HTTP
redirect to the stored target, or an `HTTPException` response. -/
inductive RedirectResult where
  | redirectTo (target : String)
  | httpError (statusCode : Nat) (detail : String)
deriving DecidableEq

/-- Lines 243-251, the body of the `try` block of `redirect_url` after the
store GET returned: a non-200 status raises `HTTPException(404, "URL not
found")` (lines 243-245); an empty result list likewise (lines 250-251);
otherwise the handler returns a redirect to `data[0]['original_url']`
(lines 247-249). -/
def redirectTry (resp : StoreResponse) : Except PyExn RedirectResult :=
  if resp.status ≠ 200 then .error (.httpException 404 "URL not found")
  else
    match resp.body with
    | [] => .error (.httpException 404 "URL not found")
    | u :: _ => .ok (.redirectTo u)

/-- Lines 234-254, the `GET /{short_code}` handler.  `fetch` is the outcome
of the store GET (lines 238-242): a raised transport exception, or a
response.  The `except Exception` on line 252 catches every exception
raised inside the `try` — including the `HTTPException(404)` raised on
lines 245 and 251 — and replaces it with `HTTPException(500, "Internal
Server Error")`. -/
def redirect_url (fetch : Except PyExn StoreResponse) : RedirectResult :=
  match fetch with
  | .error _ => .httpError 500 "Internal Server Error"
  | .ok resp =>
    match redirectTry resp with
    | .ok r => r
    | .error _ => .httpError 500 "Internal Server Error"

/-- The JSON body the store answers to the redirect lookup GET of
lines 238-242 (`select=original_url`, `short_code=eq.{code}`) when it is
healthy: status 200 and the matching rows' target URLs. -/
def storeFetch (store : Store) (code : String) : StoreResponse :=
  ⟨200, (store.filter fun r => r.short_code == code).map fun r => r.original_url⟩

/-- The fields of the auth provider's user object that the application
reads: `user.id` and `user.user_metadata`. -/
structure UserRec where
  id : String
  user_metadata : List (String × String)

/-- Outcome of `supabase.auth.get_user(token)` on line 39: the call raised,
or returned a response whose `user` field may be `None`. -/
inductive AuthOutcome where
  | raise
  | ok (user : Option UserRec)

/-- Python `m.get(k, d)` on a dict. -/
def lookupDefault (m : List (String × String)) (k d : String) : String :=
  match m.find? fun p => p.1 == k with
  | some p => p.2
  | none => d

/-- Lines 42-46: the user model's `__dict__` with `display_name` (from
`user_metadata`, defaulting to `"Unknown"`) added — a plain dict. -/
def userToDict (u : UserRec) : PyDict :=
  [("id", u.id),
   ("display_name", lookupDefault u.user_metadata "display_name" "Unknown")]

/-- First occurrence of `sep` inside `cs`: `some (pre, post)` with `cs =
pre ++ sep ++ post` at the earliest position, `none` when `sep` does not
occur.  (Used only with the nonempty separator `"Bearer "`.) -/
def splitFirst (sep : List Char) : List Char → Option (List Char × List Char)
  | [] => if sep = [] then some ([], []) else none
  | c :: cs =>
    if sep.isPrefixOf (c :: cs) then some ([], (c :: cs).drop sep.length)
    else
      match splitFirst sep cs with
      | some (pre, post) => some (c :: pre, post)
      | none => none

/-- Python `s.split(sep)[1]` for a nonempty separator: when `sep` does not
occur in `s` the split is the one-element list `[s]` and the indexing
raises `IndexError`; otherwise element 1 is the text between the first
occurrence of `sep` and the following occurrence (or the end). -/
def pySplitIndex1 (sep cs : List Char) : Except PyExn (List Char) :=
  match splitFirst sep cs with
  | none => .error .indexError
  | some (_, post) =>
    match splitFirst sep post with
    | some (mid, _) => .ok mid
    | none => .ok post

/-- Line 38: `token = token.split("Bearer ")[1]`. -/
def getBearerToken (t : String) : Except PyExn String :=
  match pySplitIndex1 "Bearer ".data t.data with
  | .error e => .error e
  | .ok cs => .ok (String.mk cs)

/-- Lines 33-49, `get_current_user`.  `cookie` is the `access_token` cookie
(line 34), `auth` the Supabase auth client.  A missing cookie returns
`None` (lines 35-36); inside the `try`, a malformed cookie makes the
`[1]` indexing raise `IndexError`, and a rejected token makes `get_user`
raise — both caught on line 47, returning `None`; a response whose `user`
is `None` falls off the end of the function, returning `None`; otherwise
the user dict of lines 42-46 is returned. -/
def get_current_user (cookie : Option String)
    (auth : String → AuthOutcome) : Option PyDict :=
  match cookie with
  | none => none
  | some t =>
    match getBearerToken t with
    | .error _ => none
    | .ok tok =>
      match auth tok with
      | .raise => none
      | .ok none => none
      | .ok (some u) => some (userToDict u)

/-- Well-formedness of a short code as the spec states it: exactly 6
characters, each from the 62-character alphanumeric alphabet. -/
def codeWellFormed (c : String) : Prop :=
  c.length = 6 ∧ ∀ ch ∈ c.data, ch ∈ alphabet

/-- A sample user dict, as `get_current_user` would produce. -/
def demoUserDict : PyDict := [("id", "user-1"), ("display_name", "demo")]

/-- A sample loop trace in which the first uniqueness check fails with a
non-success status and the second succeeds with an empty result. -/
def demoFailThenFreeTrace : List Iter :=
  [⟨fun _ => (0 : Fin 62), ⟨500, []⟩⟩, ⟨fun _ => (1 : Fin 62), ⟨200, []⟩⟩]

/-- A sample loop trace whose single check succeeds with an empty result. -/
def demoFreeTrace : List Iter := [⟨fun _ => (0 : Fin 62), ⟨200, []⟩⟩]

/-- A sample store holding one committed record. -/
def demoStore : Store := [⟨"abc123", "http://example.org", "user-1"⟩]

/-! ## Helper lemmas -/

/-- Attribute access `user.id` on the dict produced by `get_current_user`
raises `AttributeError`, whatever the dict holds. -/
theorem dictGetattr_id (d : PyDict) : dictGetattr d "id" = .error .attributeError :=
  rfl

/-- Every character of a generated code is drawn from the population. -/
theorem genCode_mem_alphabet (pick : Fin 6 → Fin 62) :
    ∀ ch ∈ (genCode pick).data, ch ∈ alphabet := by
  intro ch hch
  simp only [genCode, String.mk] at hch
  obtain ⟨i, -, rfl⟩ := List.mem_map.mp hch
  exact List.get_mem _ _ _

/-- A generated code satisfies the spec's shape: 6 characters, all from the
62-character alphanumeric alphabet. -/
theorem genCode_wellFormed (pick : Fin 6 → Fin 62) :
    codeWellFormed (genCode pick) :=
  ⟨by simp [genCode, String.length], genCode_mem_alphabet pick⟩

/-- When the generation loop exits with a code, some iteration of the trace
generated exactly that code and its uniqueness check answered status 200
with an empty result list; the loop exits in no other way. -/
theorem runLoop_found_spec (trace : List Iter) :
    ∀ (n : Nat) (sc : String), (runLoop trace n).1 = .found sc →
      ∃ it ∈ trace, sc = genCode it.pick ∧ it.resp.status = 200 ∧
        it.resp.body = [] := by
  induction trace with
  | nil => intro n sc h; simp [runLoop] at h
  | cons it rest ih =>
    intro n sc h
    by_cases hs : it.resp.status = 200
    · by_cases hb : it.resp.body.isEmpty
      · simp [runLoop, hs, hb] at h
        exact ⟨it, List.mem_cons_self it rest, h.symm, hs,
          List.isEmpty_iff.mp hb⟩
      · simp [runLoop, hs, hb] at h
        obtain ⟨it', hmem, h1, h2, h3⟩ := ih _ _ h
        exact ⟨it', List.mem_cons_of_mem it hmem, h1, h2, h3⟩
    · simp [runLoop, hs] at h
      obtain ⟨it', hmem, h1, h2, h3⟩ := ih _ _ h
      exact ⟨it', List.mem_cons_of_mem it hmem, h1, h2, h3⟩

/-- When the check body for a code is empty, no record with that code is in
the store. -/
theorem findByCode_eq_none_of_checkBody (store : Store) (sc : String)
    (h : checkBody store sc = []) : findByCode store sc = none := by
  rw [checkBody, List.map_eq_nil_iff] at h
  rw [findByCode, List.find?_eq_none]
  intro r hr hbeq
  have : r ∈ store.filter fun r => r.short_code == sc :=
    List.mem_filter.mpr ⟨hr, hbeq⟩
  simp [h] at this

/-- The sequential creation operation never changes the store: the only
path that would insert is behind the `user.id` attribute access, which
raises. -/
theorem createSeq_store_eq (v : String → Bool) (user : Option PyDict)
    (url : String) (picks : List (Fin 6 → Fin 62)) (store : Store) :
    (createSeq v user url picks store).2 = store := by
  cases user with
  | none => rfl
  | some u =>
    by_cases hv : v (normalizeUrl url) = false
    · simp [createSeq, hv]
    · cases hr : (runLoop (seqTrace store picks) 0).1 with
      | stillRunning => simp [createSeq, hv, hr]
      | found sc => simp [createSeq, hv, hr, dictGetattr_id]

/-- Under uniform check failure the loop consumes its whole trace and is
still running, having issued one store request per attempt. -/
theorem runLoop_replicate_fail (it : Iter) (h : it.resp.status ≠ 200) :
    ∀ (n k : Nat), runLoop (List.replicate n it) k = (.stillRunning, k + n) := by
  intro n
  induction n with
  | zero => intro k; simp [runLoop]
  | succ m ih =>
    intro k
    rw [List.replicate_succ]
    show runLoop (it :: List.replicate m it) k = (.stillRunning, k + (m + 1))
    simp only [runLoop, if_pos h]
    rw [ih (k + 1)]
    congr 1
    omega

/-! ## Claim theorems -/

/-- C1: under sequential execution, every creation operation preserves the
global uniqueness of `short_code` over committed records, and the
generation loop settles on a candidate only when the uniqueness check
reports it absent from the store. -/
theorem creation_preserves_code_uniqueness
    (v : String → Bool) (user : Option PyDict) (url : String)
    (picks : List (Fin 6 → Fin 62)) (store : Store)
    (h : codesUnique store) :
    codesUnique (createSeq v user url picks store).2 ∧
    ∀ sc, (runLoop (seqTrace store picks) 0).1 = .found sc →
      findByCode store sc = none := by
  constructor
  · rw [createSeq_store_eq]; exact h
  · intro sc hf
    obtain ⟨it, hmem, hsc, -, hbody⟩ := runLoop_found_spec _ 0 sc hf
    obtain ⟨p, -, rfl⟩ := List.mem_map.mp hmem
    subst hsc
    exact findByCode_eq_none_of_checkBody _ _ hbody

/-- Witness for C1 at a one-record store and a fresh candidate. -/
theorem creation_preserves_code_uniqueness_witness :
    codesUnique (createSeq (fun _ => true) (some demoUserDict)
      "http://example.com" [fun _ => (0 : Fin 62)] demoStore).2 ∧
    ∀ sc, (runLoop (seqTrace demoStore [fun _ => (0 : Fin 62)]) 0).1 = .found sc →
      findByCode demoStore sc = none :=
  creation_preserves_code_uniqueness (fun _ => true) (some demoUserDict)
    "http://example.com" [fun _ => (0 : Fin 62)] demoStore
    (by simp [codesUnique, demoStore])

/-- C2 (divergence): a `GET` on a short code absent from a healthy store
does not answer 404 — the `HTTPException(404, "URL not found")` raised
inside the `try` is caught by the handler's own `except Exception` and
re-raised as `HTTPException(500, "Internal Server Error")`; the response is
a 500 error, never a redirect. -/
theorem missing_code_yields_500_not_404 :
    findByCode ([] : Store) "abc123" = none ∧
    redirectTry (storeFetch [] "abc123") =
      .error (.httpException 404 "URL not found") ∧
    redirect_url (.ok (storeFetch [] "abc123")) =
      .httpError 500 "Internal Server Error" :=
  ⟨rfl, rfl, rfl⟩

/-- C3 (counterexample): after 100 consecutive uniqueness checks answering
a non-success status, the generation loop has neither terminated nor
failed with any exhausted-retries error — it is still running. -/
theorem check_failures_never_exhaust_retries :
    (runLoop (List.replicate 100 ⟨fun _ => (0 : Fin 62), ⟨500, []⟩⟩) 0).1 =
      .stillRunning :=
  rfl

/-- C3 (amended): under persistent store unavailability every check
answers a non-success status and the loop retries without bound: after any
number `n` of consecutive failed checks it is still running, having issued
`n` store requests, with no exhausted-retries failure. -/
theorem persistent_store_failure_loops_forever
    (n : Nat) (it : Iter) (h : it.resp.status ≠ 200) :
    runLoop (List.replicate n it) 0 = (.stillRunning, n) := by
  simpa using runLoop_replicate_fail it h n 0

/-- Witness for the amended C3 at three consecutive 503 answers. -/
theorem persistent_store_failure_loops_forever_witness :
    runLoop (List.replicate 3 ⟨fun _ => (0 : Fin 62), ⟨503, []⟩⟩) 0 =
      (.stillRunning, 3) :=
  persistent_store_failure_loops_forever 3 _ (by decide)

/-- C4 (divergence): creating a link for the valid absolute URL
`http://example.com` against an empty healthy store does not commit a
record or return a short code — the handler returns the generic error view
(the `user.id` attribute access on the user dict raises) — so the
create-then-redirect round trip never yields the URL: the subsequent
lookup of the would-be code finds nothing and answers a 500 error. -/
theorem roundtrip_broken_by_attribute_access :
    createSeq (fun _ => true) (some demoUserDict) "http://example.com"
      [fun _ => (0 : Fin 62)] [] = (CreateResult.errorOccurredView, ([] : Store)) ∧
    redirect_url (.ok (storeFetch [] (genCode fun _ => (0 : Fin 62)))) =
      .httpError 500 "Internal Server Error" :=
  ⟨by decide, rfl⟩

/-- C5: the population handed to `random.choices` is the 62-character
alphanumeric alphabet, every generated candidate is a 6-character string
over it, and any code the loop settles on (the only code ever handed to
the insert step) has that same shape. -/
theorem short_codes_are_six_alphanumeric :
    alphabet.length = 62 ∧
    (∀ ch ∈ alphabet, ch.isAlphanum = true) ∧
    (∀ pick : Fin 6 → Fin 62, codeWellFormed (genCode pick)) ∧
    ∀ (trace : List Iter) (sc : String),
      (runLoop trace 0).1 = .found sc → codeWellFormed sc := by
  refine ⟨by decide, by decide, genCode_wellFormed, ?_⟩
  intro trace sc h
  obtain ⟨it, -, rfl, -, -⟩ := runLoop_found_spec trace 0 sc h
  exact genCode_wellFormed it.pick

/-- Witness for C5 on a concrete pick sequence and a concrete loop run. -/
theorem short_codes_are_six_alphanumeric_witness :
    codeWellFormed (genCode fun _ => (0 : Fin 62)) ∧ codeWellFormed "aaaaaa" :=
  ⟨short_codes_are_six_alphanumeric.2.2.1 _,
   short_codes_are_six_alphanumeric.2.2.2 demoFreeTrace "aaaaaa" (by decide)⟩

/-- C6: a submitted URL without an `http://` or `https://` prefix has
`http://` prepended before any further use, one that already carries a
scheme is left unchanged, and `example.com` normalizes to
`http://example.com`. -/
theorem url_scheme_normalization (url : String) :
    (pyStartsWith url "http://" = false ∧ pyStartsWith url "https://" = false →
      normalizeUrl url = "http://" ++ url) ∧
    (pyStartsWith url "http://" = true ∨ pyStartsWith url "https://" = true →
      normalizeUrl url = url) ∧
    normalizeUrl "example.com" = "http://example.com" := by
  refine ⟨?_, ?_, by decide⟩
  · rintro ⟨h1, h2⟩
    simp [normalizeUrl, h1, h2]
  · rintro (h | h) <;> simp [normalizeUrl, h]

/-- Witness for C6 at a scheme-less and a scheme-qualified input. -/
theorem url_scheme_normalization_witness :
    normalizeUrl "example.com" = "http://example.com" ∧
    normalizeUrl "https://ex.org" = "https://ex.org" :=
  ⟨(url_scheme_normalization "example.com").2.2,
   (url_scheme_normalization "https://ex.org").2.1 (Or.inr (by decide))⟩

/-- C7: when the normalized URL fails validation the handler returns the
validation-error view immediately with zero store requests, and the
sequential creation operation leaves the store unchanged. -/
theorem invalid_url_rejected_no_store_calls
    (v : String → Bool) (u : PyDict) (url : String) (trace : List Iter)
    (ins : Nat) (picks : List (Fin 6 → Fin 62)) (store : Store)
    (h : v (normalizeUrl url) = false) :
    create_short_url v (some u) url trace ins = (.invalidUrlView, 0) ∧
    createSeq v (some u) url picks store = (.invalidUrlView, store) := by
  constructor <;> simp [create_short_url, createSeq, h]

/-- Witness for C7 at the spec's example input `not a url`. -/
theorem invalid_url_rejected_no_store_calls_witness :
    create_short_url (fun _ => false) (some demoUserDict) "not a url" [] 0 =
      (.invalidUrlView, 0) ∧
    createSeq (fun _ => false) (some demoUserDict) "not a url" [] [] =
      (.invalidUrlView, []) :=
  invalid_url_rejected_no_store_calls (fun _ => false) demoUserDict
    "not a url" [] 0 [] [] rfl

/-- C8: the generation loop reaches the insert step only with a candidate
whose own uniqueness check answered a success status with an empty result;
a candidate whose check failed is never the one handed to the insert. -/
theorem insert_reached_only_after_clean_free_check
    (trace : List Iter) (sc : String)
    (h : (runLoop trace 0).1 = .found sc) :
    ∃ it ∈ trace, sc = genCode it.pick ∧ it.resp.status = 200 ∧
      it.resp.body = [] :=
  runLoop_found_spec trace 0 sc h

/-- Witness for C8: a failed check followed by a clean free check. -/
theorem insert_reached_only_after_clean_free_check_witness :
    ∃ it ∈ demoFailThenFreeTrace, "bbbbbb" = genCode it.pick ∧
      it.resp.status = 200 ∧ it.resp.body = [] :=
  insert_reached_only_after_clean_free_check demoFailThenFreeTrace "bbbbbb"
    (by decide)

/-- C9: whenever an authenticated creation request passes validation and
the loop finds a free candidate, the `user.id` attribute access on the
user dict raises `AttributeError`, so the handler returns the generic
error view with no insert request ever sent. -/
theorem insert_step_raises_attribute_error
    (v : String → Bool) (u : PyDict) (url : String) (trace : List Iter)
    (ins : Nat) (sc : String)
    (hv : v (normalizeUrl url) = true)
    (hfound : (runLoop trace 0).1 = .found sc) :
    dictGetattr u "id" = .error .attributeError ∧
    create_short_url v (some u) url trace ins =
      (.errorOccurredView, (runLoop trace 0).2) := by
  refine ⟨rfl, ?_⟩
  rcases hrl : runLoop trace 0 with ⟨r, n⟩
  rw [hrl] at hfound
  simp only at hfound
  subst hfound
  simp [create_short_url, hv, hrl, dictGetattr_id]

/-- Witness for C9 at a concrete authenticated request. -/
theorem insert_step_raises_attribute_error_witness :
    dictGetattr demoUserDict "id" = .error .attributeError ∧
    create_short_url (fun _ => true) (some demoUserDict) "http://example.com"
      demoFreeTrace 201 = (.errorOccurredView, (runLoop demoFreeTrace 0).2) :=
  insert_step_raises_attribute_error (fun _ => true) demoUserDict
    "http://example.com" demoFreeTrace 201 "aaaaaa" rfl (by decide)

/-- C10: `get_current_user` resolves no user — returning `None` without an
exception — when the cookie is absent, when it is malformed (the `[1]`
indexing raises `IndexError`, caught), or when the auth client rejects the
token (raises, caught) or answers with no user; and whenever no user is
resolved the creation handler returns the 303 redirect to `/login` with
zero store requests and no URL validation. -/
theorem unauthenticated_creation_redirects_to_login
    (auth : String → AuthOutcome) (t : String) (v : String → Bool)
    (url : String) (trace : List Iter) (ins : Nat) :
    get_current_user none auth = none ∧
    (pySplitIndex1 "Bearer ".data t.data = .error .indexError →
      get_current_user (some t) auth = none) ∧
    (∀ cs, pySplitIndex1 "Bearer ".data t.data = .ok cs →
      (auth (String.mk cs) = .raise ∨ auth (String.mk cs) = .ok none) →
      get_current_user (some t) auth = none) ∧
    ∀ cookie, get_current_user cookie auth = none →
      create_short_url v (get_current_user cookie auth) url trace ins =
        (.loginRedirect, 0) := by
  refine ⟨rfl, ?_, ?_, ?_⟩
  · intro h
    simp [get_current_user, getBearerToken, h]
  · intro cs h hr
    rcases hr with hr | hr <;> simp [get_current_user, getBearerToken, h, hr]
  · intro cookie h
    rw [h]
    rfl

/-- Witness for C10 at a malformed cookie and a raising auth client. -/
theorem unauthenticated_creation_redirects_to_login_witness :
    get_current_user none (fun _ => AuthOutcome.raise) = none ∧
    create_short_url (fun _ => true)
      (get_current_user (some "junk") (fun _ => AuthOutcome.raise))
      "example.com" [] 0 = (.loginRedirect, 0) := by
  have h := unauthenticated_creation_redirects_to_login
    (fun _ => AuthOutcome.raise) "junk" (fun _ => true) "example.com" [] 0
  exact ⟨h.1, h.2.2.2 (some "junk") (h.2.1 rfl)⟩

end Trnk8
